import Mathlib

/-
  Verification of the salt community-extensions-holding cloud driver modules.

  Shallow embedding of the Python sources:
    - src/salt/cloud/clouds/gce.py        (firewall allow parsing, fwrule/network
                                           creation, disk and instance deletion,
                                           response expansion, show_instance)
    - src/salt/cloud/clouds/vmware.py     (power-state operations)
    - src/salt/states/glusterfs.py        (peered, created states)
    - src/salt/modules/boto_vpc.py        (exists probe)
    - salt.utils.cloud.wait_for_ip        (host runtime, modelled from the spec)

  Python dicts are modelled as insertion-ordered association lists, exceptions
  as `Except`, and the vendor SDK as explicit oracle functions whose calls are
  recorded in a trace.
-/

/- ===================== Python string primitives ===================== -/

/-- Helper loop for `pySplit`, accumulating the current field in reverse. -/
def pySplitAux (c : Char) : List Char → List Char → List String
  | [], acc => [String.mk acc.reverse]
  | x :: xs, acc =>
    if x = c then String.mk acc.reverse :: pySplitAux c xs []
    else pySplitAux c xs (x :: acc)

/-- Python `s.split(sep)` for a one-character separator (the sources only split
on "," and ":"): `"".split(',') == ['']`, empty fields are kept. -/
def pySplit (c : Char) (s : String) : List String := pySplitAux c s.data []

/-- Python `s.lower()`, character by character. -/
def pyLower (s : String) : String := String.mk (s.data.map Char.toLower)

/-- Equality on `Except` values, used to settle concrete runs by `decide`. -/
instance exceptDecEq {ε α : Type} [DecidableEq ε] [DecidableEq α] :
    DecidableEq (Except ε α)
  | .error e, .error e' =>
    if h : e = e' then .isTrue (by rw [h])
    else .isFalse (by intro hc; cases hc; exact h rfl)
  | .error _, .ok _ => .isFalse (by intro hc; cases hc)
  | .ok _, .error _ => .isFalse (by intro hc; cases hc)
  | .ok a, .ok a' =>
    if h : a = a' then .isTrue (by rw [h])
    else .isFalse (by intro hc; cases hc; exact h rfl)

/- ===================== gce.py: _parse_allow ===================== -/

/-- The protocols accepted by `_parse_allow` (gce.py line 495). -/
def validProtos : List String := ["tcp", "udp", "icmp"]

/-- One entry of the REST-API-format allow list produced by `_parse_allow`:
`{"IPProtocol": proto}` with an optional `"ports"` key. -/
structure AllowEntry where
  ipProtocol : String
  ports : Option (List String)
deriving Repr, DecidableEq

/-- `seen_protos[k] = []` on a Python dict: replace the value if the key is
present (keeping its position), otherwise insert at the end. -/
def setProto : List (String × List String) → String → List (String × List String)
  | [], k => [(k, [])]
  | (k', v') :: rest, k =>
    if k' = k then (k, []) :: rest else (k', v') :: setProto rest k

/-- The `if pairs[0] not in seen_protos: ... = [pairs[1]] else: ....append(pairs[1])`
update of `seen_protos` (gce.py lines 504-507). -/
def addProtoPort : List (String × List String) → String → String → List (String × List String)
  | [], k, p => [(k, [p])]
  | (k', v') :: rest, k, p =>
    if k' = k then (k', v' ++ [p]) :: rest else (k', v') :: addProtoPort rest k p

/-- A comma-separated token whose protocol part is not tcp/udp/icmp
(case-insensitively), i.e. a token `_parse_allow` rejects. -/
def tokenProtoInvalid (t : String) : Bool :=
  ¬ validProtos.contains (pyLower ((pySplit ':' t).headD ""))

/-- The `for p in protocols` loop of `_parse_allow` (gce.py lines 493-507),
accumulating `seen_protos`; the raise becomes `Except.error`. -/
def parseAllowTokens : List String → List (String × List String) →
    Except String (List (String × List String))
  | [], seen => .ok seen
  | p :: rest, seen =>
    let pairs := pySplit ':' p
    let proto := pairs.headD ""
    if ¬ validProtos.contains (pyLower proto) then
      .error ("Unsupported protocol " ++ proto ++ ". Must be tcp, udp, or icmp.")
    else if pairs.length = 1 ∨ pyLower proto = "icmp" then
      parseAllowTokens rest (setProto seen proto)
    else
      parseAllowTokens rest (addProtoPort seen proto (pairs.getD 1 ""))

/-- The output loop `for k in seen_protos` of `_parse_allow` (gce.py lines
508-512): a `ports` key is attached only when the port list is non-empty. -/
def allowEntriesOf (seen : List (String × List String)) : List AllowEntry :=
  seen.map fun kv => ⟨kv.1, if kv.2.length > 0 then some kv.2 else none⟩

/-- `_parse_allow` (gce.py lines 480-514): convert a firewall-rule allow
user-string to the REST API format, or raise `SaltCloudSystemExit`. -/
def parse_allow (allow : String) : Except String (List AllowEntry) :=
  (parseAllowTokens (pySplit ',' allow) []).map allowEntriesOf

/- ===================== gce.py: vendor-call traces ===================== -/

/-- One call out of the gce driver into the vendor SDK or the event bus. -/
inductive GceCall where
  | getConn
  | fireEvent (tag : String) (suffix : String)
  | exCreateFirewall (name : String)
  | exCreateNetwork (name : String) (cidr : String)
  | exGetVolume (name : String)
  | destroyVolume (name : String)
  | exGetNode (name : String)
  | destroyNode (name : String)
deriving Repr, DecidableEq

/- ===================== gce.py: create_fwrule ===================== -/

/-- The kwargs dict accepted by `create_fwrule` (gce.py lines 667-688);
`none` models an absent key. -/
structure FwKwargs where
  name : Option String
  network : Option String
  allow : Option String
  src_range : Option String
  src_tags : Option String

/-- `create_fwrule` (gce.py lines 654-720): missing name/allow log an error
and return False (modelled `.ok none`); `_parse_allow` runs at line 681,
before `get_conn()` at line 690, so its raise propagates with an empty
vendor-call trace.  `mkFw` models `conn.ex_create_firewall`; the returned
payload is its `_expand_item`-style dict. -/
def create_fwrule
    (mkFw : String → List AllowEntry → String → List String → Option (List String) →
      List (String × String))
    (kw : FwKwargs) :
    Except String (Option (List (String × String))) × List GceCall :=
  match kw.name with
  | none => (.ok none, [])
  | some name =>
    match kw.allow with
    | none => (.ok none, [])
    | some allowStr =>
      let network_name := kw.network.getD "default"
      match parse_allow allowStr with
      | .error e => (.error e, [])
      | .ok allow =>
        let src_range := kw.src_range.getD "0.0.0.0/0"
        let src_range_list := if src_range = "" then [] else pySplit ',' src_range
        let src_tags_list := kw.src_tags.map (pySplit ',')
        let fwrule := mkFw name allow network_name src_range_list src_tags_list
        (.ok (some fwrule),
         [.getConn, .fireEvent "create firewall" "creating",
          .exCreateFirewall name, .fireEvent "create firewall" "created"])

/- ===================== gce.py: delete_disk / destroy ===================== -/

/-- The libcloud exceptions distinguished by gce.py (`ResourceInUseError`,
`ResourceNotFoundError`) plus `SaltCloudSystemExit` and any other error. -/
inductive GceErr where
  | resourceInUse
  | resourceNotFound
  | systemExit (msg : String)
  | other (msg : String)
deriving Repr, DecidableEq

/-- The fields of a libcloud Volume read by `delete_disk`
(`disk.name`, `disk.extra['zone'].name`, `disk.size`). -/
structure DiskObj where
  name : String
  zoneName : String
  size : Nat
deriving Repr, DecidableEq

/-- The fields of a libcloud Node read by `destroy`: `node.extra['metadata']`
with its `'items'` list of key/value pairs (`none` models falsy or
item-less metadata). -/
structure NodeObj where
  name : String
  metadataItems : Option (List (String × String))
deriving Repr, DecidableEq

/-- The vendor SDK connection as an oracle: each field models one libcloud
call and its outcome. -/
structure GceVendor where
  exGetVolume : String → Except GceErr DiskObj
  destroyVolume : String → Except GceErr Bool
  exGetNode : String → Except GceErr NodeObj
  destroyNode : String → Except GceErr Bool

/-- `delete_disk` (gce.py lines 1248-1303): fires the "deleting" event, issues
`conn.destroy_volume(disk)`, catches only `ResourceInUseError` (logging and
returning False), and fires the "deleted" event only after a successful
response.  Missing `disk_name` logs and returns False before `get_conn()`. -/
def delete_disk (v : GceVendor) (diskName : Option String) :
    Except GceErr Bool × List GceCall :=
  match diskName with
  | none => (.ok false, [])
  | some dn =>
    match v.exGetVolume dn with
    | .error e => (.error e, [.getConn, .exGetVolume dn])
    | .ok disk =>
      let pre := [GceCall.getConn, .exGetVolume dn, .fireEvent "delete disk" "deleting"]
      match v.destroyVolume disk.name with
      | .error .resourceInUse => (.ok false, pre ++ [.destroyVolume disk.name])
      | .error e => (.error e, pre ++ [.destroyVolume disk.name])
      | .ok r =>
        (.ok r, pre ++ [.destroyVolume disk.name, .fireEvent "delete disk" "deleted"])

/-- The `for md in node.extra['metadata']['items']` loop of `destroy`
(gce.py lines 1671-1675): the last `salt-cloud-profile` item wins. -/
def profileOfNode (node : NodeObj) : Option String :=
  match node.metadataItems with
  | none => none
  | some items =>
    items.foldl (fun acc kv => if kv.1 = "salt-cloud-profile" then some kv.2 else acc) none

/-- The provider configuration consulted by `destroy`: per-profile
`delete_boot_pd` values (`none` models an absent key). -/
structure ProviderConf where
  profiles : List (String × Option Bool)

/-- The `delete_boot_pd` computation of `destroy` (gce.py lines 1676-1680). -/
def deleteBootPd (conf : ProviderConf) (node : NodeObj) : Bool :=
  match profileOfNode node with
  | none => false
  | some p =>
    match conf.profiles.lookup p with
    | some (some b) => b
    | some none => false
    | none => false

/-- `destroy` (gce.py lines 1629-1735): locates the node (any lookup failure
becomes `SaltCloudSystemExit`), fires "deleting", issues `destroy_node`
(failure becomes `SaltCloudSystemExit` with no "deleted" event), fires
"deleted", and when `delete_boot_pd` is set attempts the boot-disk deletion,
swallowing any exception and firing the persistent_disk "deleted" event
regardless of the outcome. -/
def destroy (v : GceVendor) (conf : ProviderConf) (vmName : String) :
    Except GceErr Bool × List GceCall :=
  match v.exGetNode vmName with
  | .error _ =>
    (.error (.systemExit ("Could not find instance " ++ vmName ++ ".")),
     [.getConn, .exGetNode vmName])
  | .ok node =>
    let pre := [GceCall.getConn, .exGetNode vmName, .fireEvent "delete instance" "deleting"]
    let dbpd := deleteBootPd conf node
    match v.destroyNode vmName with
    | .error _ =>
      (.error (.systemExit ("Could not destroy instance " ++ vmName ++ ".")),
       pre ++ [.destroyNode vmName])
    | .ok instDeleted =>
      let mid := pre ++ [GceCall.destroyNode vmName, .fireEvent "delete instance" "deleted"]
      if dbpd then
        let diskTrace :=
          match v.exGetVolume vmName with
          | .error _ => [GceCall.exGetVolume vmName]
          | .ok disk => [GceCall.exGetVolume vmName, .destroyVolume disk.name]
        (.ok instDeleted,
         mid ++ [GceCall.fireEvent "delete persistent_disk" "deleting"] ++ diskTrace ++
           [GceCall.fireEvent "delete persistent_disk" "deleted"])
      else (.ok instDeleted, mid)

/- ===================== gce.py: create_network ===================== -/

/-- `create_network` (gce.py lines 529-578): after the kwargs checks it fires
"creating", issues `conn.ex_create_network(name, cidr)` unconditionally (no
probe of existing networks), fires "created" and returns the expanded item. -/
def create_network (mkNet : String → String → List (String × String))
    (name? cidr? : Option String) : Option (List (String × String)) × List GceCall :=
  match name? with
  | none => (none, [])
  | some name =>
    match cidr? with
    | none => (none, [])
    | some cidr =>
      (some (mkNet name cidr),
       [.getConn, .fireEvent "create network" "creating",
        .exCreateNetwork name cidr, .fireEvent "create network" "created"])

/- ============ C3 / C4: concrete vendors for counterexamples ============ -/

/-- A persistent disk that the vendor reports as attached/in use. -/
def inUseDisk : DiskObj := ⟨"pd", "us-central1-a", 10⟩

/-- A vendor whose volume lookup succeeds but whose volume deletion is
rejected with `ResourceInUseError`. -/
def inUseVendor : GceVendor :=
  ⟨fun _ => .ok inUseDisk, fun _ => .error .resourceInUse,
   fun _ => .error .resourceNotFound, fun _ => .error .resourceNotFound⟩

/-- A node whose salt-cloud-profile metadata enables `delete_boot_pd`. -/
def bootPdNode : NodeObj := ⟨"web1", some [("salt-cloud-profile", "std")]⟩

/-- A vendor where instance deletion succeeds but the boot-disk deletion is
rejected as in use. -/
def bootPdVendor : GceVendor :=
  ⟨fun _ => .ok ⟨"web1", "us-central1-a", 10⟩, fun _ => .error .resourceInUse,
   fun _ => .ok bootPdNode, fun _ => .ok true⟩

/-- The provider configuration with `delete_boot_pd: true` for profile std. -/
def bootPdConf : ProviderConf := ⟨[("std", some true)]⟩

/-- A vendor where every lookup and deletion succeeds. -/
def okGceVendor : GceVendor :=
  ⟨fun n => .ok ⟨n, "us-central1-a", 10⟩, fun _ => .ok true,
   fun n => .ok ⟨n, none⟩, fun _ => .ok true⟩

/- ===================== states/glusterfs.py ===================== -/

/-- The gluster-side state visible to the glusterfs state module. -/
structure GlusterWorld where
  peers : List String
  volumes : List String
deriving Repr, DecidableEq

/-- Calls out of the glusterfs state module into the execution module
(`__salt__['glusterfs.*']`), which shells out to the gluster CLI. -/
inductive GlusterCall where
  | listPeers
  | peerProbe (name : String)
  | listVolumes
  | createVolume (name : String)
deriving Repr, DecidableEq

/-- Context injected by the host runtime: `socket.gethostname().split('.')[0]`,
`__opts__['test']`, and the effect and return message of the
`glusterfs.peer` / `glusterfs.create` execution-module calls. -/
structure GlusterCtx where
  localHostname : String
  testMode : Bool
  peerEffect : String → GlusterWorld → GlusterWorld × String
  createEffect : String → GlusterWorld → GlusterWorld × String

/-- The state return dict of `glusterfs.peered`; `changes`, when present,
holds the (new, old) peer lists. -/
structure PeeredRet where
  name : String
  changes : Option (List String × List String)
  comment : String
  result : Bool
deriving Repr, DecidableEq

/-- `peered` (glusterfs.py lines 27-78): returns "already peered" when the
probed peer list contains the name; otherwise calls `glusterfs.peer` and
re-probes; result is also True (without changes) when the name equals the
local short hostname even though no peer was added. -/
def peered (ctx : GlusterCtx) (name : String) (w : GlusterWorld) :
    PeeredRet × GlusterWorld × List GlusterCall :=
  let peers := w.peers
  if name ∈ peers then
    (⟨name, none, "Host " ++ name ++ " already peered", true⟩, w, [.listPeers])
  else if ctx.testMode then
    (⟨name, none, "Peer " ++ name ++ " will be added.", true⟩, w, [.listPeers])
  else
    let res := ctx.peerEffect name w
    let w' := res.1
    let newpeers := w'.peers
    let calls := [GlusterCall.listPeers, .peerProbe name, .listPeers]
    if name ∈ newpeers then
      (⟨name, some (newpeers, peers), res.2, true⟩, w', calls)
    else if name = ctx.localHostname then
      (⟨name, none, res.2, true⟩, w', calls)
    else
      (⟨name, none, res.2, false⟩, w', calls)

/-- The state return dict of `glusterfs.created`; `changes`, when true,
stands for `{'new': name, 'old': ''}`. -/
structure CreatedRet where
  name : String
  changes : Bool
  comment : String
  result : Bool
deriving Repr, DecidableEq

/-- `created` (glusterfs.py lines 81-122): returns "already exists" without
calling `glusterfs.create` when the probed volume list contains the name;
otherwise creates and re-probes. -/
def created (ctx : GlusterCtx) (name : String) (w : GlusterWorld) :
    CreatedRet × GlusterWorld × List GlusterCall :=
  let volumes := w.volumes
  if name ∈ volumes then
    (⟨name, false, "Volume " ++ name ++ " already exists.", true⟩, w, [.listVolumes])
  else if ctx.testMode then
    (⟨name, false, "Volume " ++ name ++ " will be created", true⟩, w, [.listVolumes])
  else
    let res := ctx.createEffect name w
    let w' := res.1
    let calls := [GlusterCall.listVolumes, .createVolume name, .listVolumes]
    if name ∈ w'.volumes then
      (⟨name, true, res.2, true⟩, w', calls)
    else
      (⟨name, false, res.2, false⟩, w', calls)

/-- A context in which the peer name is the local short hostname and the
gluster CLI refuses to peer with the local host, leaving the peer list
unchanged (the situation the `name == socket.gethostname().split('.')[0]`
branch of `peered` exists for). -/
def selfPeerCtx : GlusterCtx :=
  ⟨"gluster1", false,
   fun _ w => (w, "success: gluster1 is local, probe not needed"),
   fun n w => (⟨w.peers, w.volumes ++ [n]⟩, "volume created")⟩

/- ===================== cloud/clouds/vmware.py ===================== -/

/-- The per-VM properties fetched by the vmware power operations:
`name` and `summary.runtime.powerState`. -/
structure VmwareVM where
  name : String
  powerState : String
deriving Repr, DecidableEq

/-- Power-mutation calls issued to the vSphere API (`PowerOn`, `PowerOff`,
`Suspend`, `Reset` on the VM object). -/
inductive VmwareCall where
  | powerOn (name : String)
  | powerOff (name : String)
  | suspendVm (name : String)
  | resetVm (name : String)
deriving Repr, DecidableEq

/-- The `for vm in vm_list` loop of `start` (vmware.py lines 840-852): first
matching VM already powered on returns early; otherwise `PowerOn()` is tried
(failure returns early) and the loop continues; the fall-through return is
the success string "powered on". -/
def startLoop (act : VmwareVM → Except String Unit) (name : String) :
    List VmwareVM → List VmwareCall → String × List VmwareCall
  | [], calls => ("powered on", calls)
  | vm :: rest, calls =>
    if vm.name = name then
      if vm.powerState = "poweredOn" then ("already powered on", calls)
      else
        match act vm with
        | .error _ => ("failed to power on", calls ++ [.powerOn vm.name])
        | .ok _ => startLoop act name rest (calls ++ [.powerOn vm.name])
    else startLoop act name rest calls

/-- `start` (vmware.py lines 818-852). -/
def start (vmList : List VmwareVM) (act : VmwareVM → Except String Unit)
    (name : String) : String × List VmwareCall :=
  startLoop act name vmList []

/-- The `for vm in vm_list` loop of `stop` (vmware.py lines 877-889);
fall-through return is "powered off". -/
def stopLoop (act : VmwareVM → Except String Unit) (name : String) :
    List VmwareVM → List VmwareCall → String × List VmwareCall
  | [], calls => ("powered off", calls)
  | vm :: rest, calls =>
    if vm.name = name then
      if vm.powerState = "poweredOff" then ("already powered off", calls)
      else
        match act vm with
        | .error _ => ("failed to power off", calls ++ [.powerOff vm.name])
        | .ok _ => stopLoop act name rest (calls ++ [.powerOff vm.name])
    else stopLoop act name rest calls

/-- `stop` (vmware.py lines 855-889). -/
def stop (vmList : List VmwareVM) (act : VmwareVM → Except String Unit)
    (name : String) : String × List VmwareCall :=
  stopLoop act name vmList []

/-- The loop of `suspend` (vmware.py lines 914-930): powered-off VMs cannot
be suspended, suspended VMs return early; fall-through is "suspended". -/
def suspendLoop (act : VmwareVM → Except String Unit) (name : String) :
    List VmwareVM → List VmwareCall → String × List VmwareCall
  | [], calls => ("suspended", calls)
  | vm :: rest, calls =>
    if vm.name = name then
      if vm.powerState = "poweredOff" then
        ("cannot suspend in powered off state", calls)
      else if vm.powerState = "suspended" then ("already suspended", calls)
      else
        match act vm with
        | .error _ => ("failed to suspend", calls ++ [.suspendVm vm.name])
        | .ok _ => suspendLoop act name rest (calls ++ [.suspendVm vm.name])
    else suspendLoop act name rest calls

/-- `suspend` (vmware.py lines 892-930). -/
def suspend (vmList : List VmwareVM) (act : VmwareVM → Except String Unit)
    (name : String) : String × List VmwareCall :=
  suspendLoop act name vmList []

/-- The loop of `reset` (vmware.py lines 955-967): suspended or powered-off
VMs cannot be reset; fall-through is "reset". -/
def resetLoop (act : VmwareVM → Except String Unit) (name : String) :
    List VmwareVM → List VmwareCall → String × List VmwareCall
  | [], calls => ("reset", calls)
  | vm :: rest, calls =>
    if vm.name = name then
      if vm.powerState = "suspended" ∨ vm.powerState = "poweredOff" then
        ("cannot reset in suspended/powered off state", calls)
      else
        match act vm with
        | .error _ => ("failed to reset", calls ++ [.resetVm vm.name])
        | .ok _ => resetLoop act name rest (calls ++ [.resetVm vm.name])
    else resetLoop act name rest calls

/-- `reset` (vmware.py lines 933-967). -/
def reset (vmList : List VmwareVM) (act : VmwareVM → Except String Unit)
    (name : String) : String × List VmwareCall :=
  resetLoop act name vmList []

/- ===================== salt.utils.cloud.wait_for_ip ===================== -/

/-- Modelled from the spec: the poll loop of `salt.utils.cloud.wait_for_ip`
(the host runtime's bounded eventual-consistency wait, not part of src/),
which polls `update` on a fixed interval up to the timeout; the fuel is the
number of interval steps that fit in the timeout.  Returns the outcome and
the number of probe attempts made. -/
def waitPoll {α : Type} (update : Nat → Option α) :
    Nat → Nat → Except String α × Nat
  | 0, attempts => (.error "TimeoutError", attempts)
  | fuel + 1, attempts =>
    match update attempts with
    | some a => (.ok a, attempts + 1)
    | none => waitPoll update fuel (attempts + 1)

/-- Modelled from the spec: `salt.utils.cloud.wait_for_ip(update, timeout,
interval)` as invoked by tencentcloud.py `create` (lines 615-630) with
caller-configurable `wait_for_ip_timeout` and `wait_for_ip_interval`: at most
`timeout / interval` probe attempts, then `TimeoutError`. -/
def wait_for_ip {α : Type} (update : Nat → Option α) (timeout interval : Nat) :
    Except String α × Nat :=
  waitPoll update (timeout / interval) 0

/- ===================== modules/boto_vpc.py: exists ===================== -/

/-- `exists` (boto_vpc.py lines 123-145): a failed connection returns False;
`conn.get_all_vpcs(vpc_ids=[vpc_id])` returning normally yields True; any
`BotoServerError` — which is what boto raises for an absent VPC id — is
caught, logged and yields False. -/
def boto_vpc_exists (conn : Option (String → Except String (List String)))
    (vpcId : String) : Bool :=
  match conn with
  | none => false
  | some getAllVpcs =>
    match getAllVpcs vpcId with
    | .ok _ => true
    | .error _ => false

/- ===================== gce.py: show_instance ===================== -/

/-- `show_instance` (gce.py lines 326-335): returns
`_expand_node(conn.ex_get_node(vm_name))` with no exception handling, so the
`ResourceNotFoundError` that libcloud raises for an absent instance (the
same exception gce.py itself catches around `ex_get_network` in
`delete_network`, lines 612-623) propagates to the caller.  `_expand_node`
is total on a returned node (modelled on the object graph below), so the
error behavior is exactly that of `ex_get_node`. -/
def show_instance (v : GceVendor) (vmName : String) : Except GceErr NodeObj :=
  v.exGetNode vmName

/-- A vendor on which every lookup reports the resource as absent by raising
`ResourceNotFoundError`. -/
def absentGceVendor : GceVendor :=
  ⟨fun _ => .error .resourceNotFound, fun _ => .error .resourceNotFound,
   fun _ => .error .resourceNotFound, fun _ => .error .resourceNotFound⟩

/- ========== gce.py: _expand_item / _expand_node / _expand_balancer ========== -/

/-- A Python value inside a vendor SDK response: a primitive, a raw object
reference (object identity in a heap graph), a list, or a dict. -/
inductive PyVal where
  | str (s : String)
  | num (n : Nat)
  | obj (id : Nat)
  | list (xs : List PyVal)
  | dict (kvs : List (String × PyVal))
deriving Repr

/-- The vendor SDK's object heap: object id to `__dict__` (insertion-ordered
association list).  Back-references and cycles are `PyVal.obj` edges. -/
abbrev PyGraph := List (Nat × List (String × PyVal))

/-- Fetch an object's `__dict__` from the heap. -/
def getObj (g : PyGraph) (id : Nat) : Option (List (String × PyVal)) :=
  g.lookup id

/-- Python `d[k]` / attribute access; `none` models KeyError/AttributeError. -/
def getKey (d : List (String × PyVal)) (k : String) : Option PyVal :=
  d.lookup k

/-- View a value as a dict. -/
def asDict : PyVal → Option (List (String × PyVal))
  | .dict kvs => some kvs
  | _ => none

/-- View a value as a list. -/
def asListV : PyVal → Option (List PyVal)
  | .list xs => some xs
  | _ => none

/-- View a value as a raw object reference. -/
def asObjId : PyVal → Option Nat
  | .obj i => some i
  | _ => none

/-- View a value as a string. -/
def asStr : PyVal → Option String
  | .str s => some s
  | _ => none

/-- Python `d[k] = v`: replace in place, or append a new key. -/
def setKeyVal : List (String × PyVal) → String → PyVal → List (String × PyVal)
  | [], k, v => [(k, v)]
  | (k', v') :: rest, k, v =>
    if k' = k then (k, v) :: rest else (k', v') :: setKeyVal rest k v

/-- Python `del d[k]` wrapped in try/except pass: drop the key if present. -/
def delKey (d : List (String × PyVal)) (k : String) : List (String × PyVal) :=
  d.filter fun kv => kv.1 ≠ k

/-- `_expand_item` (gce.py lines 249-255): `ret = {}; ret.update(item.__dict__)`
is a one-level copy of the object's dict — values that are vendor objects stay
raw `PyVal.obj` references; no reference is followed. -/
def expand_item (g : PyGraph) (id : Nat) : Option (List (String × PyVal)) :=
  getObj g id

/-- `obj.name` for a referenced vendor object. -/
def nameOf (g : PyGraph) (id : Nat) : Option String :=
  getObj g id >>= fun d => getKey d "name" >>= asStr

/-- `_expand_node` (gce.py lines 258-271): copy the node dict, drop
`extra['boot_disk']` (try/except pass), and replace `extra['zone']` with the
full `zone.__dict__` — a re-expanded object, not a name reference. -/
def expand_node (g : PyGraph) (id : Nat) : Option (List (String × PyVal)) := do
  let d ← getObj g id
  let extra ← getKey d "extra" >>= asDict
  let extra1 := delKey extra "boot_disk"
  let zoneId ← getKey extra1 "zone" >>= asObjId
  let zd ← getObj g zoneId
  pure (setKeyVal d "extra" (.dict (setKeyVal extra1 "zone" (.dict zd))))

/-- The forwarding-rule step of `_expand_balancer` (gce.py lines 297-303):
copy `fwr.__dict__` and substitute the `targetpool` and `region`
back-references with their names. -/
def expandBalancerFwr (g : PyGraph) (extra1 : List (String × PyVal)) :
    Option (List (String × PyVal)) := do
  let fwrId ← getKey extra1 "forwarding_rule" >>= asObjId
  let fwrD ← getObj g fwrId
  let tpId ← getKey fwrD "targetpool" >>= asObjId
  let regId ← getKey fwrD "region" >>= asObjId
  let tpName ← nameOf g tpId
  let regName ← nameOf g regId
  let fwrD1 := setKeyVal (setKeyVal fwrD "targetpool" (.str tpName)) "region" (.str regName)
  pure (setKeyVal extra1 "forwarding_rule" (.dict fwrD1))

/-- The target-pool step of `_expand_balancer` (gce.py lines 305-322): copy
`tp.__dict__`, expand its region via `_expand_item`, expand nodes via
`_expand_node`, replace the healthchecks by their names, and finally replace
the region's `zones` by zone names. -/
def expandBalancerTp (g : PyGraph) (extra2 : List (String × PyVal)) :
    Option (List (String × PyVal)) := do
  let tpId ← getKey extra2 "targetpool" >>= asObjId
  let tpD ← getObj g tpId
  let tpHcVals ← getKey tpD "healthchecks" >>= asListV
  let tpHcIds ← tpHcVals.mapM asObjId
  let tpHcNames ← tpHcIds.mapM (nameOf g)
  let nodeVals ← getKey tpD "nodes" >>= asListV
  let nodeIds ← nodeVals.mapM asObjId
  let nodeDicts ← nodeIds.mapM (expand_node g)
  let tpRegId ← getKey tpD "region" >>= asObjId
  let tpRegD ← getObj g tpRegId
  let zoneVals ← getKey tpRegD "zones" >>= asListV
  let zoneIds ← zoneVals.mapM asObjId
  let zoneNames ← zoneIds.mapM (nameOf g)
  let tpRegD1 := setKeyVal tpRegD "zones" (.list (zoneNames.map PyVal.str))
  let tpD1 := setKeyVal (setKeyVal (setKeyVal tpD
      "region" (.dict tpRegD1)) "nodes" (.list (nodeDicts.map PyVal.dict)))
      "healthchecks" (.list (tpHcNames.map PyVal.str))
  pure (setKeyVal extra2 "targetpool" (.dict tpD1))

/-- `_expand_balancer` (gce.py lines 286-323): copy the balancer dict, expand
the healthcheck list via `_expand_item`, then the forwarding-rule and
target-pool steps. -/
def expand_balancer (g : PyGraph) (lbId : Nat) : Option (List (String × PyVal)) := do
  let d ← getObj g lbId
  let extra ← getKey d "extra" >>= asDict
  let hcVals ← getKey extra "healthchecks" >>= asListV
  let hcIds ← hcVals.mapM asObjId
  let hcDicts ← hcIds.mapM (expand_item g)
  let extra1 := setKeyVal extra "healthchecks" (.list (hcDicts.map PyVal.dict))
  let extra2 ← expandBalancerFwr g extra1
  let extra3 ← expandBalancerTp g extra2
  pure (setKeyVal d "extra" (.dict extra3))

/-- The spec's synthetic object graph A→B→A: each object back-references the
other. -/
def abGraph : PyGraph :=
  [(0, [("name", .str "A"), ("other", .obj 1)]),
   (1, [("name", .str "B"), ("other", .obj 0)])]

/-- Modelled from the spec's words for the refinement comparison: "every
back-referenced object appears in the result only as its name/id string,
never as a re-expanded full object" — in particular no raw object reference
remains among the normalized dict's values. -/
def backrefsAsNames (d : List (String × PyVal)) : Prop :=
  ∀ kv ∈ d, ∀ i, kv.2 ≠ PyVal.obj i

/-- A synthetic load-balancer object graph with the cyclic back-references
described in the spec: region 13 lists zone 14 in `zones`, and zone 14
back-references region 13; node 16 embeds zone 14 and a boot_disk. -/
def lbGraph : PyGraph :=
  [(10, [("name", .str "lb"),
         ("extra", .dict [("healthchecks", .list [.obj 15]),
                          ("forwarding_rule", .obj 11),
                          ("targetpool", .obj 12)])]),
   (11, [("name", .str "fwr"), ("targetpool", .obj 12), ("region", .obj 13)]),
   (12, [("name", .str "tp"), ("healthchecks", .list [.obj 15]),
         ("nodes", .list [.obj 16]), ("region", .obj 13)]),
   (13, [("name", .str "region1"), ("zones", .list [.obj 14])]),
   (14, [("name", .str "zone-a"), ("region", .obj 13)]),
   (15, [("name", .str "hc"), ("port", .num 80)]),
   (16, [("name", .str "node1"),
         ("extra", .dict [("zone", .obj 14), ("boot_disk", .obj 99)])])]

/-- A glusterfs context in which `glusterfs.peer` actually adds the peer. -/
def addPeerCtx : GlusterCtx :=
  ⟨"master", false,
   fun n w => (⟨w.peers ++ [n], w.volumes⟩, "peer probe: success"),
   fun n w => (⟨w.peers, w.volumes ++ [n]⟩, "volume create: success")⟩

/- ===================== theorems ===================== -/

/-- C1: Parsing the allow string "tcp:53,tcp:80,tcp:443,icmp,tcp:4201,udp:53"
yields the structured mapping [{tcp:[53,80,443,4201]}, {icmp}, {udp:[53]}]:
ports are grouped under their protocol key in input order, icmp carries no
port list, and the protocol entries appear in first-seen order. -/
theorem parse_allow_groups_ports_in_first_seen_order :
    parse_allow "tcp:53,tcp:80,tcp:443,icmp,tcp:4201,udp:53" =
      .ok [⟨"tcp", some ["53", "80", "443", "4201"]⟩,
           ⟨"icmp", none⟩,
           ⟨"udp", some ["53"]⟩] := by
  decide

/-- If any comma-separated token of the input has a protocol part outside
tcp/udp/icmp, the `_parse_allow` loop raises, whatever `seen_protos` holds. -/
theorem parseAllowTokens_error_of_invalid :
    ∀ (ts : List String) (seen : List (String × List String)),
      (∃ t ∈ ts, tokenProtoInvalid t = true) →
      ∃ e, parseAllowTokens ts seen = .error e := by
  intro ts
  induction ts with
  | nil => intro seen h; obtain ⟨t, ht, _⟩ := h; cases ht
  | cons p rest ih =>
    intro seen h
    by_cases hp : validProtos.contains (pyLower ((pySplit ':' p).headD ""))
    · have hrest : ∃ t ∈ rest, tokenProtoInvalid t = true := by
        obtain ⟨t, ht, hbad⟩ := h
        rcases List.mem_cons.mp ht with rfl | htr
        · exact absurd hp (by simpa [tokenProtoInvalid] using hbad)
        · exact ⟨t, htr, hbad⟩
      unfold parseAllowTokens
      simp only [hp, not_true_eq_false, if_false]
      split
      · exact ih _ hrest
      · exact ih _ hrest
    · refine ⟨"Unsupported protocol " ++ (pySplit ':' p).headD "" ++
        ". Must be tcp, udp, or icmp.", ?_⟩
      unfold parseAllowTokens
      rw [if_pos hp]

/-- C2: For every allow string with a protocol token outside tcp/udp/icmp,
`_parse_allow` raises a validation error (`SaltCloudSystemExit`), and
`create_fwrule` propagates it with an empty vendor-call trace: the error is
raised before `get_conn()` and before any vendor API call. -/
theorem create_fwrule_invalid_protocol_fails_before_vendor_call
    (mkFw : String → List AllowEntry → String → List String → Option (List String) →
      List (String × String))
    (kw : FwKwargs) (nm s : String)
    (hname : kw.name = some nm) (hallow : kw.allow = some s)
    (hbad : ∃ t ∈ pySplit ',' s, tokenProtoInvalid t = true) :
    (∃ e, parse_allow s = .error e) ∧
    (∃ e, (create_fwrule mkFw kw).1 = .error e) ∧
    (create_fwrule mkFw kw).2 = [] := by
  obtain ⟨e, he⟩ := parseAllowTokens_error_of_invalid (pySplit ',' s) [] hbad
  have hpa : parse_allow s = .error e := by
    unfold parse_allow
    rw [he]
    rfl
  refine ⟨⟨e, hpa⟩, ⟨e, ?_⟩, ?_⟩ <;>
    simp [create_fwrule, hname, hallow, hpa]

/-- C2 witness: the concrete allow string "sctp:80" is rejected by
`_parse_allow` and `create_fwrule` makes no vendor call on it. -/
theorem create_fwrule_invalid_protocol_witness :
    (∃ e, parse_allow "sctp:80" = .error e) ∧
    (∃ e, (create_fwrule (fun _ _ _ _ _ => [])
      ⟨some "allow-odd", none, some "sctp:80", none, none⟩).1 = .error e) ∧
    (create_fwrule (fun _ _ _ _ _ => [])
      ⟨some "allow-odd", none, some "sctp:80", none, none⟩).2 = [] :=
  create_fwrule_invalid_protocol_fails_before_vendor_call
    (fun _ _ _ _ _ => []) ⟨some "allow-odd", none, some "sctp:80", none, none⟩
    "allow-odd" "sctp:80" rfl rfl ⟨"sctp:80", by decide, by decide⟩

/-- C3 counterexample: deleting an in-use disk does issue one vendor delete
call (`conn.destroy_volume`), relying on the vendor to reject it; the claim
that zero delete calls are issued is false, and the caught error is not
surfaced — `delete_disk` returns False (`.ok false`), not an error. -/
theorem delete_disk_in_use_issues_one_delete_call :
    inUseVendor.destroyVolume "pd" = .error .resourceInUse ∧
    (delete_disk inUseVendor (some "pd")).2.count (GceCall.destroyVolume "pd") = 1 ∧
    (delete_disk inUseVendor (some "pd")).1 = .ok false := by
  decide

/-- C3 amended: deleting a disk the vendor reports as in use does not
auto-detach: `delete_disk` issues exactly one delete call, the vendor's
`ResourceInUseError` is caught and logged, no "deleted" event is emitted, no
further vendor call (in particular no detach) is made, and the operation
returns False to the caller. -/
theorem delete_disk_in_use_no_detach_returns_false
    (v : GceVendor) (dn : String) (disk : DiskObj)
    (hget : v.exGetVolume dn = .ok disk)
    (hdestroy : v.destroyVolume disk.name = .error .resourceInUse) :
    (delete_disk v (some dn)).1 = .ok false ∧
    (delete_disk v (some dn)).2 =
      [.getConn, .exGetVolume dn, .fireEvent "delete disk" "deleting",
       .destroyVolume disk.name] := by
  simp [delete_disk, hget, hdestroy]

/-- C3 witness: the amended statement at the concrete in-use vendor. -/
theorem delete_disk_in_use_no_detach_witness :
    (delete_disk inUseVendor (some "pd")).1 = .ok false ∧
    (delete_disk inUseVendor (some "pd")).2 =
      [.getConn, .exGetVolume "pd", .fireEvent "delete disk" "deleting",
       .destroyVolume "pd"] :=
  delete_disk_in_use_no_detach_returns_false inUseVendor "pd" inUseDisk rfl rfl

/-- C4 counterexample: in `destroy` with `delete_boot_pd` enabled, the
boot-disk `destroy_volume` call fails, yet the terminal persistent_disk
"deleted" success event is still emitted (the event fires outside the
try/except, gce.py lines 1728-1733) — refuting the claim that no terminal
success event is emitted for a failed mutation. -/
theorem destroy_emits_deleted_event_after_failed_disk_delete :
    bootPdVendor.destroyVolume "web1" = .error .resourceInUse ∧
    (destroy bootPdVendor bootPdConf "web1").2.count
      (GceCall.fireEvent "delete persistent_disk" "deleted") = 1 := by
  decide

/-- C4 amended: the before/after lifecycle event discipline holds for
`delete_disk` and for the instance deletion inside `destroy` — the "deleting"
event fires immediately before the vendor delete call, and the terminal
"deleted" event fires exactly when that call succeeds — but not for the
best-effort boot-disk cleanup inside `destroy`, which emits its "deleted"
event even when the volume deletion fails. -/
theorem lifecycle_events_match_mutation_outcome
    (v : GceVendor) (conf : ProviderConf) (dn vmName : String) (disk : DiskObj)
    (hget : v.exGetVolume dn = .ok disk) :
    ((delete_disk v (some dn)).2 =
      [.getConn, .exGetVolume dn, .fireEvent "delete disk" "deleting",
       .destroyVolume disk.name] ++
      (match v.destroyVolume disk.name with
       | .ok _ => [GceCall.fireEvent "delete disk" "deleted"]
       | .error _ => [])) ∧
    (GceCall.fireEvent "delete instance" "deleted" ∈ (destroy v conf vmName).2 ↔
      (∃ node, v.exGetNode vmName = .ok node) ∧ (∃ b, v.destroyNode vmName = .ok b)) := by
  constructor
  · rcases hdv : v.destroyVolume disk.name with e | b
    · cases e <;> simp [delete_disk, hget, hdv]
    · simp [delete_disk, hget, hdv]
  · rcases hn : v.exGetNode vmName with e | node
    · simp [destroy, hn]
    · rcases hdn : v.destroyNode vmName with e | b
      · simp [destroy, hn, hdn]
      · simp only [destroy, hn, hdn]
        constructor
        · intro _
          exact ⟨⟨node, rfl⟩, ⟨b, rfl⟩⟩
        · intro _
          split
          · rcases hgv : v.exGetVolume vmName with e' | disk' <;> simp [hgv]
          · simp

/-- C4 witness: the amended statement at a vendor where both deletions
succeed. -/
theorem lifecycle_events_match_mutation_outcome_witness :
    ((delete_disk okGceVendor (some "pd")).2 =
      [.getConn, .exGetVolume "pd", .fireEvent "delete disk" "deleting",
       .destroyVolume "pd"] ++
      (match okGceVendor.destroyVolume "pd" with
       | .ok _ => [GceCall.fireEvent "delete disk" "deleted"]
       | .error _ => [])) ∧
    (GceCall.fireEvent "delete instance" "deleted" ∈
        (destroy okGceVendor ⟨[]⟩ "web1").2 ↔
      (∃ node, okGceVendor.exGetNode "web1" = .ok node) ∧
      (∃ b, okGceVendor.destroyNode "web1" = .ok b)) :=
  lifecycle_events_match_mutation_outcome okGceVendor ⟨[]⟩ "pd" "web1"
    ⟨"pd", "us-central1-a", 10⟩ rfl

/-- `start` falls through to "powered on" with no call when no VM matches. -/
theorem startLoop_no_match (act : VmwareVM → Except String Unit) (nm : String) :
    ∀ (l : List VmwareVM) (calls : List VmwareCall),
      (∀ u ∈ l, u.name ≠ nm) → startLoop act nm l calls = ("powered on", calls) := by
  intro l
  induction l with
  | nil => intro calls _; rfl
  | cons vm rest ih =>
    intro calls h
    have hvm : vm.name ≠ nm := h vm (List.mem_cons_self vm rest)
    have hrest : ∀ u ∈ rest, u.name ≠ nm := fun u hu => h u (List.mem_cons_of_mem vm hu)
    simp only [startLoop, if_neg hvm]
    exact ih calls hrest

/-- `stop` falls through to "powered off" with no call when no VM matches. -/
theorem stopLoop_no_match (act : VmwareVM → Except String Unit) (nm : String) :
    ∀ (l : List VmwareVM) (calls : List VmwareCall),
      (∀ u ∈ l, u.name ≠ nm) → stopLoop act nm l calls = ("powered off", calls) := by
  intro l
  induction l with
  | nil => intro calls _; rfl
  | cons vm rest ih =>
    intro calls h
    have hvm : vm.name ≠ nm := h vm (List.mem_cons_self vm rest)
    have hrest : ∀ u ∈ rest, u.name ≠ nm := fun u hu => h u (List.mem_cons_of_mem vm hu)
    simp only [stopLoop, if_neg hvm]
    exact ih calls hrest

/-- `suspend` falls through to "suspended" with no call when no VM matches. -/
theorem suspendLoop_no_match (act : VmwareVM → Except String Unit) (nm : String) :
    ∀ (l : List VmwareVM) (calls : List VmwareCall),
      (∀ u ∈ l, u.name ≠ nm) → suspendLoop act nm l calls = ("suspended", calls) := by
  intro l
  induction l with
  | nil => intro calls _; rfl
  | cons vm rest ih =>
    intro calls h
    have hvm : vm.name ≠ nm := h vm (List.mem_cons_self vm rest)
    have hrest : ∀ u ∈ rest, u.name ≠ nm := fun u hu => h u (List.mem_cons_of_mem vm hu)
    simp only [suspendLoop, if_neg hvm]
    exact ih calls hrest

/-- `reset` falls through to "reset" with no call when no VM matches. -/
theorem resetLoop_no_match (act : VmwareVM → Except String Unit) (nm : String) :
    ∀ (l : List VmwareVM) (calls : List VmwareCall),
      (∀ u ∈ l, u.name ≠ nm) → resetLoop act nm l calls = ("reset", calls) := by
  intro l
  induction l with
  | nil => intro calls _; rfl
  | cons vm rest ih =>
    intro calls h
    have hvm : vm.name ≠ nm := h vm (List.mem_cons_self vm rest)
    have hrest : ∀ u ∈ rest, u.name ≠ nm := fun u hu => h u (List.mem_cons_of_mem vm hu)
    simp only [resetLoop, if_neg hvm]
    exact ih calls hrest

/-- The first matching VM already powered on returns early with no call. -/
theorem startLoop_already_on (act : VmwareVM → Except String Unit) (nm : String) :
    ∀ (l₁ : List VmwareVM) (vm : VmwareVM) (l₂ : List VmwareVM)
      (calls : List VmwareCall),
      (∀ u ∈ l₁, u.name ≠ nm) → vm.name = nm → vm.powerState = "poweredOn" →
      startLoop act nm (l₁ ++ vm :: l₂) calls = ("already powered on", calls) := by
  intro l₁
  induction l₁ with
  | nil =>
    intro vm l₂ calls _ hvm hps
    simp only [List.nil_append, startLoop, if_pos hvm, if_pos hps]
  | cons u rest ih =>
    intro vm l₂ calls h hvm hps
    have hu : u.name ≠ nm := h u (List.mem_cons_self u rest)
    simp only [List.cons_append, startLoop, if_neg hu]
    exact ih vm l₂ calls (fun x hx => h x (List.mem_cons_of_mem u hx)) hvm hps

/-- The first matching VM already powered off returns early with no call. -/
theorem stopLoop_already_off (act : VmwareVM → Except String Unit) (nm : String) :
    ∀ (l₁ : List VmwareVM) (vm : VmwareVM) (l₂ : List VmwareVM)
      (calls : List VmwareCall),
      (∀ u ∈ l₁, u.name ≠ nm) → vm.name = nm → vm.powerState = "poweredOff" →
      stopLoop act nm (l₁ ++ vm :: l₂) calls = ("already powered off", calls) := by
  intro l₁
  induction l₁ with
  | nil =>
    intro vm l₂ calls _ hvm hps
    simp only [List.nil_append, stopLoop, if_pos hvm, if_pos hps]
  | cons u rest ih =>
    intro vm l₂ calls h hvm hps
    have hu : u.name ≠ nm := h u (List.mem_cons_self u rest)
    simp only [List.cons_append, stopLoop, if_neg hu]
    exact ih vm l₂ calls (fun x hx => h x (List.mem_cons_of_mem u hx)) hvm hps

/-- C5 counterexample: with the peer name equal to the local short hostname
and a gluster CLI that refuses to self-peer (the very situation the
`name == socket.gethostname().split('.')[0]` branch handles), the first
`peered` application succeeds (result True), yet the second application
issues another `glusterfs.peer` mutation call and does not report
"already peered" — refuting idempotence for every spec and handle. -/
theorem peered_self_hostname_not_idempotent :
    ((peered selfPeerCtx "gluster1" ⟨[], []⟩).1.result = true) ∧
    ((peered selfPeerCtx "gluster1"
        ((peered selfPeerCtx "gluster1" ⟨[], []⟩).2.1)).2.2.count
      (GlusterCall.peerProbe "gluster1") = 1) ∧
    ((peered selfPeerCtx "gluster1"
        ((peered selfPeerCtx "gluster1" ⟨[], []⟩).2.1)).1.comment ≠
      "Host gluster1 already peered") := by
  decide

/-- C5 amended: reconciliation is idempotent whenever the first application
actually brought the resource to the desired state: if the first `peered`
call records changes (the peer is in the re-probed list), the second call
reports "Host ... already peered" with result True and probes only (no
`glusterfs.peer` call); and once a VM is powered on, a second `start`
returns "already powered on" with no PowerOn call.  The exception is the
self-hostname branch of `peered`, which returns success without the state
being reached. -/
theorem reapply_after_successful_change_already_satisfied
    (ctx : GlusterCtx) (name : String) (w : GlusterWorld)
    (c : List String × List String)
    (hchg : (peered ctx name w).1.changes = some c)
    (l₁ : List VmwareVM) (vm : VmwareVM) (l₂ : List VmwareVM)
    (act : VmwareVM → Except String Unit) (nm : String)
    (hl₁ : ∀ u ∈ l₁, u.name ≠ nm) (hvm : vm.name = nm)
    (hps : vm.powerState = "poweredOn") :
    ((peered ctx name ((peered ctx name w).2.1)).1.comment =
        "Host " ++ name ++ " already peered" ∧
      (peered ctx name ((peered ctx name w).2.1)).1.result = true ∧
      (peered ctx name ((peered ctx name w).2.1)).2.2 = [GlusterCall.listPeers]) ∧
    start (l₁ ++ vm :: l₂) act nm = ("already powered on", []) := by
  constructor
  · by_cases h1 : name ∈ w.peers
    · simp [peered, h1] at hchg
    · by_cases h2 : ctx.testMode
      · simp [peered, h1, h2] at hchg
      · by_cases h3 : name ∈ (ctx.peerEffect name w).1.peers
        · have hw1 : (peered ctx name w).2.1 = (ctx.peerEffect name w).1 := by
            simp [peered, h1, h2, h3]
          rw [hw1]
          simp [peered, h3]
        · exfalso
          have hnone : (peered ctx name w).1.changes = none := by
            simp only [peered]
            rw [if_neg h1, if_neg h2, if_neg h3]
            split <;> rfl
          rw [hnone] at hchg
          exact Option.noConfusion hchg
  · exact startLoop_already_on act nm l₁ vm l₂ [] hl₁ hvm hps

/-- C5 witness: the amended statement for a gluster CLI that adds the peer
and a VM list whose first matching VM is already powered on. -/
theorem reapply_after_successful_change_witness :
    ((peered addPeerCtx "node2" ((peered addPeerCtx "node2" ⟨[], []⟩).2.1)).1.comment =
        "Host " ++ "node2" ++ " already peered" ∧
      (peered addPeerCtx "node2" ((peered addPeerCtx "node2" ⟨[], []⟩).2.1)).1.result = true ∧
      (peered addPeerCtx "node2" ((peered addPeerCtx "node2" ⟨[], []⟩).2.1)).2.2 =
        [GlusterCall.listPeers]) ∧
    start ([] ++ ⟨"web", "poweredOn"⟩ :: []) (fun _ => .ok ()) "web" =
      ("already powered on", []) :=
  reapply_after_successful_change_already_satisfied addPeerCtx "node2" ⟨[], []⟩
    (["node2"], []) rfl [] ⟨"web", "poweredOn"⟩ [] (fun _ => .ok ()) "web"
    (by intro u hu; cases hu) rfl rfl

/-- C6 counterexample: `create_network` issues the `ex_create_network`
mutation with no probe of the current state at all — its vendor-call trace
contains no list/describe call before the create — so when the network
already exists the mutation is issued redundantly, refuting "every operation
first probes and issues the mutation call only on a detected mismatch". -/
theorem create_network_mutates_without_probe :
    (create_network (fun n c => [("name", n), ("cidr", c)])
        (some "mynet") (some "10.0.0.0/24")).2 =
      [.getConn, .fireEvent "create network" "creating",
       .exCreateNetwork "mynet" "10.0.0.0/24",
       .fireEvent "create network" "created"] := by
  rfl

/-- C6 amended: the probe-before-mutate discipline holds for the operations
the claim cites — `stop` issues no PowerOff when the first matching VM is
already powered off, and `created` issues no `glusterfs.create` when the
probed volume list already contains the name — but not for every operation
of the repository (`create_network` mutates without probing). -/
theorem no_mutation_when_state_already_satisfied
    (l₁ : List VmwareVM) (vm : VmwareVM) (l₂ : List VmwareVM)
    (act : VmwareVM → Except String Unit) (nm : String)
    (hl₁ : ∀ u ∈ l₁, u.name ≠ nm) (hvm : vm.name = nm)
    (hps : vm.powerState = "poweredOff")
    (ctx : GlusterCtx) (name : String) (w : GlusterWorld)
    (hvol : name ∈ w.volumes) :
    stop (l₁ ++ vm :: l₂) act nm = ("already powered off", []) ∧
    ((created ctx name w).1.comment = "Volume " ++ name ++ " already exists." ∧
      (created ctx name w).1.result = true ∧
      (created ctx name w).2.2 = [GlusterCall.listVolumes]) := by
  refine ⟨stopLoop_already_off act nm l₁ vm l₂ [] hl₁ hvm hps, ?_⟩
  simp [created, hvol]

/-- C6 witness: the amended statement for a powered-off VM and an existing
volume. -/
theorem no_mutation_when_state_already_satisfied_witness :
    stop ([] ++ ⟨"db", "poweredOff"⟩ :: []) (fun _ => .ok ()) "db" =
      ("already powered off", []) ∧
    ((created addPeerCtx "vol1" ⟨[], ["vol1"]⟩).1.comment =
        "Volume " ++ "vol1" ++ " already exists." ∧
      (created addPeerCtx "vol1" ⟨[], ["vol1"]⟩).1.result = true ∧
      (created addPeerCtx "vol1" ⟨[], ["vol1"]⟩).2.2 = [GlusterCall.listVolumes]) :=
  no_mutation_when_state_already_satisfied [] ⟨"db", "poweredOff"⟩ []
    (fun _ => .ok ()) "db" (by intro u hu; cases hu) rfl rfl
    addPeerCtx "vol1" ⟨[], ["vol1"]⟩ (by simp)

/-- The probe counter of the poll loop never exceeds the remaining fuel. -/
theorem waitPoll_attempts_le {α : Type} (update : Nat → Option α) :
    ∀ (fuel k : Nat), (waitPoll update fuel k).2 ≤ k + fuel := by
  intro fuel
  induction fuel with
  | zero => intro k; simp [waitPoll]
  | succ n ih =>
    intro k
    simp only [waitPoll]
    cases h : update k with
    | some a => simp
    | none =>
      have := ih (k + 1)
      simp only []
      omega

/-- With a prober that never succeeds, the poll loop exhausts its fuel and
returns `TimeoutError` after exactly `fuel` further attempts. -/
theorem waitPoll_always_none {α : Type} (update : Nat → Option α)
    (h : ∀ n, update n = none) :
    ∀ (fuel k : Nat), waitPoll update fuel k = (.error "TimeoutError", k + fuel) := by
  intro fuel
  induction fuel with
  | zero => intro k; simp [waitPoll]
  | succ n ih =>
    intro k
    have hk : k + (n + 1) = (k + 1) + n := by omega
    rw [hk]
    simp only [waitPoll, h k]
    exact ih (k + 1)

/-- C7: the eventual-consistency wait used by tencentcloud `create` makes at
most `timeout / interval` probe attempts — for interval=1, timeout=3 at most
3 probes — and with a prober that always reports incomplete it stops and
signals `TimeoutError` rather than retrying indefinitely. -/
theorem wait_for_ip_attempts_bounded_then_timeout {α : Type}
    (update : Nat → Option α) (timeout interval : Nat)
    (halways : ∀ n, update n = none) :
    (wait_for_ip update timeout interval).2 ≤ timeout / interval ∧
    (wait_for_ip update timeout interval).1 = .error "TimeoutError" := by
  constructor
  · have h := waitPoll_attempts_le update (timeout / interval) 0
    simpa [wait_for_ip] using h
  · unfold wait_for_ip
    rw [waitPoll_always_none update halways (timeout / interval) 0]

/-- C7 witness: interval=1, timeout=3 with an always-incomplete prober makes
at most 3 probes and times out. -/
theorem wait_for_ip_attempts_bounded_witness :
    (wait_for_ip (fun _ => (none : Option Nat)) 3 1).2 ≤ 3 / 1 ∧
    (wait_for_ip (fun _ => (none : Option Nat)) 3 1).1 = .error "TimeoutError" :=
  wait_for_ip_attempts_bounded_then_timeout (fun _ => none) 3 1 (fun _ => rfl)

/-- C8 counterexample: probing an absent instance with `show_instance` does
raise — the vendor's `ResourceNotFoundError` propagates to the caller
unhandled instead of being represented as an absent flag in the returned
state. -/
theorem show_instance_raises_on_absent_instance :
    show_instance absentGceVendor "gone" = .error .resourceNotFound := rfl

/-- C8 amended: `boto_vpc.exists` never raises — the `BotoServerError` that
boto raises for an absent VPC id is caught and absence is returned as False
(genuine vendor errors are swallowed to False as well, not signalled as
probe errors) — whereas `show_instance` propagates the vendor's
`ResourceNotFoundError` for an absent instance. -/
theorem probe_absence_boto_false_gce_raises
    (getAll : String → Except String (List String)) (vpcId e : String)
    (habs : getAll vpcId = .error e)
    (v : GceVendor) (nm : String)
    (hnode : v.exGetNode nm = .error .resourceNotFound) :
    boto_vpc_exists (some getAll) vpcId = false ∧
    show_instance v nm = .error .resourceNotFound := by
  constructor
  · simp [boto_vpc_exists, habs]
  · simp [show_instance, hnode]

/-- C8 witness: the amended statement at a vendor reporting absence. -/
theorem probe_absence_boto_false_gce_raises_witness :
    boto_vpc_exists (some fun _ => .error "InvalidVpcID.NotFound") "vpc-1" = false ∧
    show_instance absentGceVendor "gone" = .error .resourceNotFound :=
  probe_absence_boto_false_gce_raises (fun _ => .error "InvalidVpcID.NotFound")
    "vpc-1" "InvalidVpcID.NotFound" rfl absentGceVendor "gone" rfl

/-- C9 counterexample: on the spec's synthetic A→B→A graph, `_expand_item`
terminates but the back-referenced object B stays in the result as the raw
object reference (`PyVal.obj 1`), not as its name string "B", so the result
still reaches the B→A cycle and is not acyclic/serializable. -/
theorem expand_item_keeps_raw_backref :
    expand_item abGraph 0 = some [("name", PyVal.str "A"), ("other", PyVal.obj 1)] ∧
    getObj abGraph 1 = some [("name", PyVal.str "B"), ("other", PyVal.obj 0)] ∧
    ¬ (∀ d, expand_item abGraph 0 = some d → backrefsAsNames d) := by
  refine ⟨rfl, rfl, ?_⟩
  intro hall
  have h := hall [("name", PyVal.str "A"), ("other", PyVal.obj 1)] rfl
    ("other", PyVal.obj 1) (by simp) 1
  exact h rfl

/-- C9 amended: normalization terminates on the cyclic balancer graph because
it never follows references recursively (each expansion is a one-level dict
copy plus hard-coded substitutions), and back-references are replaced by
name strings only at the hard-coded spots — the forwarding rule's targetpool
and region, the target pool's healthcheck names and its region's zone
names — while other embedded objects are kept raw (`_expand_item`) or
re-expanded as full dicts (the node's zone, whose own region back-reference
`PyVal.obj 13` remains raw in the result). -/
theorem expand_balancer_substitutes_names_at_fixed_spots :
    expand_balancer lbGraph 10 =
      some [("name", PyVal.str "lb"),
        ("extra", PyVal.dict
          [("healthchecks",
            PyVal.list [PyVal.dict [("name", PyVal.str "hc"), ("port", PyVal.num 80)]]),
           ("forwarding_rule", PyVal.dict
             [("name", PyVal.str "fwr"), ("targetpool", PyVal.str "tp"),
              ("region", PyVal.str "region1")]),
           ("targetpool", PyVal.dict
             [("name", PyVal.str "tp"),
              ("healthchecks", PyVal.list [PyVal.str "hc"]),
              ("nodes", PyVal.list
                [PyVal.dict
                  [("name", PyVal.str "node1"),
                   ("extra", PyVal.dict
                     [("zone", PyVal.dict
                       [("name", PyVal.str "zone-a"), ("region", PyVal.obj 13)])])]]),
              ("region", PyVal.dict
                [("name", PyVal.str "region1"),
                 ("zones", PyVal.list [PyVal.str "zone-a"])])])])] := rfl

/-- C10: when the VM name matches no VM in the probed list, `start`, `stop`,
`suspend` and `reset` issue no power-mutation call and return the terminal
success strings "powered on", "powered off", "suspended" and "reset" (the
fall-through return after the search loop) rather than a not-found error. -/
theorem power_ops_unknown_vm_return_success_without_calls
    (vmList : List VmwareVM)
    (act1 act2 act3 act4 : VmwareVM → Except String Unit) (nm : String)
    (h : ∀ u ∈ vmList, u.name ≠ nm) :
    start vmList act1 nm = ("powered on", []) ∧
    stop vmList act2 nm = ("powered off", []) ∧
    suspend vmList act3 nm = ("suspended", []) ∧
    reset vmList act4 nm = ("reset", []) :=
  ⟨startLoop_no_match act1 nm vmList [] h, stopLoop_no_match act2 nm vmList [] h,
   suspendLoop_no_match act3 nm vmList [] h, resetLoop_no_match act4 nm vmList [] h⟩

/-- C10 witness: a VM list with no VM named "ghost". -/
theorem power_ops_unknown_vm_witness :
    start [⟨"alpha", "poweredOn"⟩] (fun _ => .ok ()) "ghost" = ("powered on", []) ∧
    stop [⟨"alpha", "poweredOn"⟩] (fun _ => .ok ()) "ghost" = ("powered off", []) ∧
    suspend [⟨"alpha", "poweredOn"⟩] (fun _ => .ok ()) "ghost" = ("suspended", []) ∧
    reset [⟨"alpha", "poweredOn"⟩] (fun _ => .ok ()) "ghost" = ("reset", []) :=
  power_ops_unknown_vm_return_success_without_calls [⟨"alpha", "poweredOn"⟩]
    (fun _ => .ok ()) (fun _ => .ok ()) (fun _ => .ok ()) (fun _ => .ok ())
    "ghost" (by decide)
